import Mathlib

/-!
Verification of the OnChainCred core: the Merkle commitment engine
(src/unnamed/part_000, class MerkleTree) and the credit score engine
(src/unnamed/part_001, class CreditScoreEngine), shallowly embedded in
Lean 4. Hashes are modelled as a free term algebra (an uninterpreted
collision-free pairing hash), JS numbers as rationals, and the wall
clock read Math.floor(Date.now() / 1000) as an explicit parameter.
-/

namespace OnChainCred

/-- Hash values. The source uses keccak256 over abi-encoded pairs; we model
hash values as a free term algebra, so the pairing hash is injective and
concrete distinct atoms are distinct (collision-freeness assumption). -/
inductive Hash where
  | atom : Nat → Hash
  | node : Hash → Hash → Hash
deriving DecidableEq, Repr

/-- The private hashFunction of class MerkleTree: keccak256(abi.encode(left, right)),
modelled as the free pairing constructor. -/
def hashFunction (left right : Hash) : Hash := Hash.node left right

/-- MerkleTree.padLeaves: duplicate the last leaf when the count is odd.
The default for getLastD is never used: an empty list has even length. -/
def padLeaves (leaves : List Hash) : List Hash :=
  if leaves.length % 2 = 0 then leaves
  else leaves ++ [leaves.getLastD (Hash.atom 0)]

/-- One level-combining pass of MerkleTree.buildTree: hash adjacent pairs,
duplicating the last element when the level has odd length. -/
def pairUp : List Hash → List Hash
  | [] => []
  | [x] => [hashFunction x x]
  | x :: y :: rest => hashFunction x y :: pairUp rest

/-- The while loop of MerkleTree.buildTree, producing the levels strictly above
the current one. Fuel bounds the iteration count; `currentLevel.length` always
suffices because each pass at least halves a level of length above one. -/
def buildTreeAux : Nat → List Hash → List (List Hash)
  | 0, _ => []
  | fuel + 1, currentLevel =>
    if currentLevel.length > 1 then
      let nextLevel := pairUp currentLevel
      nextLevel :: buildTreeAux fuel nextLevel
    else []

/-- MerkleTree.buildTree: the list of levels, leaves first, root level last. -/
def buildTree (leaves : List Hash) : List (List Hash) :=
  leaves :: buildTreeAux leaves.length leaves

/-- MerkleTree.generateRoot. The empty-input throw is modelled as `none`. -/
def generateRoot (leaves : List Hash) : Option Hash :=
  if leaves.length = 0 then none
  else if leaves.length = 1 then some (leaves.headD (Hash.atom 0))
  else
    let paddedLeaves := padLeaves leaves
    let tree := buildTree paddedLeaves
    some ((tree.getLastD []).headD (Hash.atom 0))

/-- The record returned by MerkleTree.generateProof. -/
structure MerkleProofData where
  leaf : Hash
  path : List Hash
  siblings : List Hash
  indices : List Nat
deriving DecidableEq, Repr

/-- The per-level loop of MerkleTree.generateProof, over the levels of the tree
other than the root level, threading currentIndex. When the sibling position
falls outside the level, the level contributes no entry (the skip behavior). -/
def proofLoop : List (List Hash) → Nat → List Hash × List Hash × List Nat
  | [], _ => ([], [], [])
  | level :: rest, currentIndex =>
    let isRight := currentIndex % 2 = 1
    let siblingIndex := if currentIndex % 2 = 1 then currentIndex - 1 else currentIndex + 1
    let (path, siblings, indices) := proofLoop rest (currentIndex / 2)
    if siblingIndex < level.length then
      (level.getD currentIndex (Hash.atom 0) :: path,
       level.getD siblingIndex (Hash.atom 0) :: siblings,
       (if isRight then 1 else 0) :: indices)
    else
      (path, siblings, indices)

/-- MerkleTree.generateProof. The out-of-bounds throw is modelled as `none`. -/
def generateProof (leaves : List Hash) (leafIndex : Nat) : Option MerkleProofData :=
  if leafIndex ≥ leaves.length then none
  else
    let paddedLeaves := padLeaves leaves
    let tree := buildTree paddedLeaves
    let (path, siblings, indices) := proofLoop tree.dropLast leafIndex
    some { leaf := leaves.getD leafIndex (Hash.atom 0)
           path := path
           siblings := siblings
           indices := indices }

/-- The fold of MerkleTree.verifyProof from the leaf toward the root. -/
def verifyFold : Hash → List Hash → List Nat → Hash
  | currentHash, [], _ => currentHash
  | currentHash, sibling :: rest, indices =>
    let isRight := indices.headD 0 = 1
    let nextHash :=
      if isRight then hashFunction sibling currentHash
      else hashFunction currentHash sibling
    verifyFold nextHash rest indices.tail

/-- MerkleTree.verifyProof: fails closed on mismatched lengths, otherwise folds
the proof and compares against the root. -/
def verifyProof (leaf : Hash) (proof : List Hash) (root : Hash) (indices : List Nat) : Bool :=
  if proof.length ≠ indices.length then false
  else decide (verifyFold leaf proof indices = root)

/-- The round trip of §8 of the spec at a given leaf list and index: generate
the proof and the root, then verify the proof against the root. `none` when
either generation step throws. -/
def roundTrip (leaves : List Hash) (leafIndex : Nat) : Option Bool :=
  (generateProof leaves leafIndex).bind fun proofData =>
    (generateRoot leaves).map fun root =>
      verifyProof (leaves.getD leafIndex (Hash.atom 0)) proofData.siblings root proofData.indices

/-- The type field of a CreditEvent. -/
inductive EventType where
  | transaction
  | staking
  | lending
  | attestation
  | risk
deriving DecidableEq, Repr

/-- The metadata keys the engine actually reads from the open metadata map:
action, onTime, duration, riskType. A missing key is `none`; the source tests
keys by strict equality or truthiness. -/
structure Metadata where
  action : Option String := none
  onTime : Option Bool := none
  duration : Option ℚ := none
  riskType : Option String := none
deriving DecidableEq, Repr

/-- CreditEvent from part_001. JS numbers are modelled as rationals. -/
structure CreditEvent where
  type : EventType
  timestamp : ℚ
  value : ℚ
  metadata : Metadata
  weight : ℚ
deriving DecidableEq, Repr

/-- ScoreComponent from part_001. -/
structure ScoreComponent where
  name : String
  score : ℚ
  weight : ℚ
  reason : String
  maxScore : ℚ
deriving DecidableEq, Repr

/-- CreditScoreEngine.computeRepaymentScore. The loop accumulates
(totalBorrowed, totalRepaid, onTimePayments, latePayments); the truthiness
test on metadata.onTime holds exactly for `some true`. -/
def computeRepaymentScore (events : List CreditEvent) : ℚ :=
  let lendingEvents := events.filter fun e => decide (e.type = EventType.lending)
  if lendingEvents.length = 0 then 0
  else
    let acc := lendingEvents.foldl
      (fun (a : ℚ × ℚ × Nat × Nat) e =>
        if e.metadata.action = some "borrow" then
          (a.1 + e.value, a.2.1, a.2.2.1, a.2.2.2)
        else if e.metadata.action = some "repay" then
          if e.metadata.onTime = some true then
            (a.1, a.2.1 + e.value, a.2.2.1 + 1, a.2.2.2)
          else
            (a.1, a.2.1 + e.value, a.2.2.1, a.2.2.2 + 1)
        else a)
      (0, 0, 0, 0)
    let totalBorrowed := acc.1
    let totalRepaid := acc.2.1
    let onTimePayments := acc.2.2.1
    let latePayments := acc.2.2.2
    if totalBorrowed = 0 then 0
    else
      let repaymentRatio := totalRepaid / totalBorrowed
      let score := min (repaymentRatio * 300) 300
      let totalPayments := onTimePayments + latePayments
      let score :=
        if totalPayments > 0 then
          score + ((onTimePayments : ℚ) / (totalPayments : ℚ)) * 100
        else score
      min score 400

/-- CreditScoreEngine.computeStakingScore. The loop accumulates
(totalStaked, accumulated duration, longTermStakes); the accumulated duration
is then divided by the count of ALL staking events, not only stake actions.
longTermStakes is computed by the source but never used. -/
def computeStakingScore (events : List CreditEvent) : ℚ :=
  let stakingEvents := events.filter fun e => decide (e.type = EventType.staking)
  if stakingEvents.length = 0 then 0
  else
    let acc := stakingEvents.foldl
      (fun (a : ℚ × ℚ × Nat) e =>
        if e.metadata.action = some "stake" then
          let duration := e.metadata.duration.getD 0
          (a.1 + e.value, a.2.1 + duration,
           if duration ≥ 180 * 24 * 60 * 60 then a.2.2 + 1 else a.2.2)
        else a)
      (0, 0, 0)
    let totalStaked := acc.1
    let averageDuration := acc.2.1 / (stakingEvents.length : ℚ)
    let amountScore := min ((totalStaked / 10) * 150) 150
    let durationScore := min ((averageDuration / (365 * 24 * 60 * 60)) * 100) 100
    amountScore + durationScore

/-- CreditScoreEngine.computeActivityScore. `now` is the wall clock value
Math.floor(Date.now() / 1000) read inside the source function, lifted to an
explicit parameter. The loop accumulates (recentActivity, mediumActivity,
totalVolume). -/
def computeActivityScore (events : List CreditEvent) (now : ℚ) : ℚ :=
  let transactionEvents := events.filter fun e => decide (e.type = EventType.transaction)
  if transactionEvents.length = 0 then 0
  else
    let thirtyDaysAgo := now - 30 * 24 * 60 * 60
    let ninetyDaysAgo := now - 90 * 24 * 60 * 60
    let acc := transactionEvents.foldl
      (fun (a : Nat × Nat × ℚ) e =>
        if e.timestamp ≥ thirtyDaysAgo then (a.1 + 1, a.2.1, a.2.2 + e.value)
        else if e.timestamp ≥ ninetyDaysAgo then (a.1, a.2.1 + 1, a.2.2 + e.value)
        else (a.1, a.2.1, a.2.2 + e.value))
      (0, 0, 0)
    let recentActivity := acc.1
    let mediumActivity := acc.2.1
    let totalVolume := acc.2.2
    let frequencyScore := min ((recentActivity : ℚ) * 10 + (mediumActivity : ℚ) * 5) 100
    let volumeScore := min ((totalVolume / 100) * 100) 100
    frequencyScore + volumeScore

/-- CreditScoreEngine.computeAttestationScore: 20 points per attestation
event, capped at 100. -/
def computeAttestationScore (events : List CreditEvent) : ℚ :=
  let attestationEvents := events.filter fun e => decide (e.type = EventType.attestation)
  min ((attestationEvents.length : ℚ) * 20) 100

/-- The per-event increment of CreditScoreEngine.computeRiskScore, from the
if / else-if chain over metadata.riskType. -/
def riskDelta (e : CreditEvent) : ℚ :=
  if e.metadata.riskType = some "late_payment" then 20
  else if e.metadata.riskType = some "high_leverage" then 15
  else if e.metadata.riskType = some "suspicious_activity" then 25
  else 0

/-- CreditScoreEngine.computeRiskScore: sum the per-event increments over
risk events, capped at 50. -/
def computeRiskScore (events : List CreditEvent) : ℚ :=
  let riskEvents := events.filter fun e => decide (e.type = EventType.risk)
  let riskScore := riskEvents.foldl (fun acc e => acc + riskDelta e) 0
  min riskScore 50

/-- CreditScoreEngine.getRepaymentReason. -/
def getRepaymentReason (score : ℚ) : String :=
  if score ≥ 350 then "Excellent repayment history with consistent on-time payments"
  else if score ≥ 250 then "Good repayment history with occasional late payments"
  else if score ≥ 150 then "Fair repayment history with some late payments"
  else "Poor repayment history with frequent late payments"

/-- CreditScoreEngine.getStakingReason. -/
def getStakingReason (score : ℚ) : String :=
  if score ≥ 200 then "Strong staking behavior with long-term commitments"
  else if score ≥ 150 then "Good staking behavior with moderate duration"
  else if score ≥ 100 then "Fair staking behavior with short-term stakes"
  else "Limited staking activity"

/-- CreditScoreEngine.getActivityReason. -/
def getActivityReason (score : ℚ) : String :=
  if score ≥ 150 then "High transaction activity with significant volume"
  else if score ≥ 100 then "Moderate transaction activity"
  else if score ≥ 50 then "Low transaction activity"
  else "Minimal transaction activity"

/-- CreditScoreEngine.getAttestationReason. -/
def getAttestationReason (score : ℚ) : String :=
  if score ≥ 80 then "Strong social attestations from trusted sources"
  else if score ≥ 60 then "Good social attestations"
  else if score ≥ 40 then "Some social attestations"
  else "Limited social attestations"

/-- CreditScoreEngine.getRiskReason. -/
def getRiskReason (score : ℚ) : String :=
  if score ≤ 10 then "Low risk profile with clean history"
  else if score ≤ 25 then "Moderate risk with some concerns"
  else if score ≤ 40 then "High risk with multiple red flags"
  else "Very high risk profile"

/-- CreditScoreEngine.computeComponents: the five components in source order,
with the fixed weights and ceilings. `now` is the wall clock parameter of the
activity score. -/
def computeComponents (events : List CreditEvent) (now : ℚ) : List ScoreComponent :=
  let repaymentScore := computeRepaymentScore events
  let stakingScore := computeStakingScore events
  let activityScore := computeActivityScore events now
  let attestationScore := computeAttestationScore events
  let riskScore := computeRiskScore events
  [ { name := "Repayment History", score := repaymentScore, weight := 40 / 100,
      reason := getRepaymentReason repaymentScore, maxScore := 400 },
    { name := "Staking Behavior", score := stakingScore, weight := 25 / 100,
      reason := getStakingReason stakingScore, maxScore := 250 },
    { name := "Transaction Activity", score := activityScore, weight := 20 / 100,
      reason := getActivityReason activityScore, maxScore := 200 },
    { name := "Social Attestations", score := attestationScore, weight := 10 / 100,
      reason := getAttestationReason attestationScore, maxScore := 100 },
    { name := "Risk Assessment", score := riskScore, weight := 5 / 100,
      reason := getRiskReason riskScore, maxScore := 50 } ]

/-- CreditScoreEngine.calculateTotalScore: sum the component scores, with the
Risk Assessment component subtracted, then clamp to [0, maxScore = 1000]. -/
def calculateTotalScore (components : List ScoreComponent) : ℚ :=
  let totalScore := components.foldl
    (fun totalScore component =>
      if component.name = "Risk Assessment" then totalScore - component.score
      else totalScore + component.score)
    0
  max 0 (min totalScore 1000)

/-! ## Merkle commitment engine: claims C1, C6, C7, C8, C9 -/

/-- C1. The round-trip property fails on the code: for the five distinct
leaves [atom 0, .., atom 4] and leafIndex 4, generateProof silently skips the
odd-sized middle level (sibling position 3 is outside the 3-node level), so
the generated proof folds to a hash different from the generated root and
verifyProof returns false, where the claim requires true. -/
theorem roundTrip_fails_at_five_leaves_index_four :
    roundTrip [Hash.atom 0, Hash.atom 1, Hash.atom 2, Hash.atom 3, Hash.atom 4] 4
      = some false := by
  decide

/-- C6. For every 3-leaf list [h1, h2, h3], the proof generated at index 0
verifies against the generated root: the padded tree has four leaves, both
levels below the root are even-sized, no level is skipped, and the fold
rebuilds the root exactly. -/
theorem roundTrip_three_leaves_index_zero (h1 h2 h3 : Hash) :
    roundTrip [h1, h2, h3] 0 = some true := by
  simp [roundTrip, generateProof, generateRoot, padLeaves, buildTree, buildTreeAux,
    pairUp, proofLoop, verifyProof, verifyFold, hashFunction]

/-- C7. Odd-leaf padding: the root of [a, b, c] equals the root of
[a, b, c, c], because padLeaves duplicates the last leaf of an odd-length
list before the tree is built. -/
theorem generateRoot_odd_padding (a b c : Hash) :
    generateRoot [a, b, c] = generateRoot [a, b, c, c] := by
  simp [generateRoot, padLeaves, buildTree, buildTreeAux, pairUp, hashFunction]

/-- C8. Verification fails closed: whenever the siblings and indices lists
have different lengths, verifyProof returns false (the embedded function is
total, so no exception is possible). -/
theorem verifyProof_mismatched_lengths (leaf : Hash) (proof : List Hash)
    (root : Hash) (indices : List Nat) (h : proof.length ≠ indices.length) :
    verifyProof leaf proof root indices = false := by
  simp [verifyProof, h]

/-- Witness for C8 at a concrete mismatched input: one sibling, no indices. -/
theorem verifyProof_mismatched_lengths_witness :
    ([Hash.atom 1] : List Hash).length ≠ ([] : List Nat).length ∧
    verifyProof (Hash.atom 0) [Hash.atom 1] (Hash.atom 0) [] = false :=
  ⟨by decide,
   verifyProof_mismatched_lengths (Hash.atom 0) [Hash.atom 1] (Hash.atom 0) []
     (by decide)⟩

/-- C9. An empty proof verifies exactly when the leaf equals the root: with
no siblings and no indices the fold returns the leaf unchanged, and the
length guard passes. -/
theorem verifyProof_empty_iff (leaf root : Hash) :
    verifyProof leaf [] root [] = true ↔ leaf = root := by
  simp [verifyProof, verifyFold]

/-! ## Score engine: claims C2, C3, C4, C5, C10 -/

theorem computeRepaymentScore_le (events : List CreditEvent) :
    computeRepaymentScore events ≤ 400 := by
  simp only [computeRepaymentScore]
  split
  · norm_num
  · split
    · norm_num
    · exact min_le_right _ _

theorem computeStakingScore_le (events : List CreditEvent) :
    computeStakingScore events ≤ 250 := by
  simp only [computeStakingScore]
  split
  · norm_num
  · exact le_trans (add_le_add (min_le_right _ _) (min_le_right _ _)) (by norm_num)

theorem computeActivityScore_le (events : List CreditEvent) (now : ℚ) :
    computeActivityScore events now ≤ 200 := by
  simp only [computeActivityScore]
  split
  · norm_num
  · exact le_trans (add_le_add (min_le_right _ _) (min_le_right _ _)) (by norm_num)

theorem computeAttestationScore_le (events : List CreditEvent) :
    computeAttestationScore events ≤ 100 := by
  simp only [computeAttestationScore]
  exact min_le_right _ _

theorem computeRiskScore_le (events : List CreditEvent) :
    computeRiskScore events ≤ 50 := by
  simp only [computeRiskScore]
  exact min_le_right _ _

theorem calculateTotalScore_nonneg (components : List ScoreComponent) :
    0 ≤ calculateTotalScore components := by
  simp only [calculateTotalScore]
  exact le_max_left _ _

theorem calculateTotalScore_le (components : List ScoreComponent) :
    calculateTotalScore components ≤ 1000 := by
  simp only [calculateTotalScore]
  exact max_le (by norm_num) (min_le_right _ _)

/-- C2. Score bounds: for every event list and every wall clock value, the
aggregated total lies in [0, 1000], and each of the five components produced
by computeComponents has score at most its maxScore (400, 250, 200, 100, 50). -/
theorem score_bounds (events : List CreditEvent) (now : ℚ) :
    0 ≤ calculateTotalScore (computeComponents events now) ∧
    calculateTotalScore (computeComponents events now) ≤ 1000 ∧
    ((computeComponents events now).all fun c => decide (c.score ≤ c.maxScore)) = true := by
  refine ⟨calculateTotalScore_nonneg _, calculateTotalScore_le _, ?_⟩
  simp only [computeComponents, List.all_cons, List.all_nil, Bool.and_eq_true,
    decide_eq_true_eq]
  exact ⟨computeRepaymentScore_le events, computeStakingScore_le events,
    computeActivityScore_le events now, computeAttestationScore_le events,
    computeRiskScore_le events, trivial⟩

/-- C3 counterexample. On the scenario of the claim — a borrow of 1000, an
on-time repay of 1000, and a late repay of 0 — the repayment sub-score is not
400: the zero-value late repay still counts as a payment, so the on-time
ratio is 1/2, not 1/1. -/
theorem repaymentScenario_ne_400 :
    computeRepaymentScore
      [ { type := EventType.lending, timestamp := 0, value := 1000,
          metadata := { action := some "borrow" }, weight := 1 },
        { type := EventType.lending, timestamp := 0, value := 1000,
          metadata := { action := some "repay", onTime := some true }, weight := 1 },
        { type := EventType.lending, timestamp := 0, value := 0,
          metadata := { action := some "repay", onTime := some false }, weight := 1 } ]
      ≠ 400 := by
  simp [computeRepaymentScore, List.filter, List.foldl]
  norm_num [min_def]

/-- C3 amended. The scenario yields min(1.0 * 300, 300) + (1/2) * 100 = 350:
both repay events count as payments, one of the two on time. -/
theorem repaymentScenario_eq_350 :
    computeRepaymentScore
      [ { type := EventType.lending, timestamp := 0, value := 1000,
          metadata := { action := some "borrow" }, weight := 1 },
        { type := EventType.lending, timestamp := 0, value := 1000,
          metadata := { action := some "repay", onTime := some true }, weight := 1 },
        { type := EventType.lending, timestamp := 0, value := 0,
          metadata := { action := some "repay", onTime := some false }, weight := 1 } ]
      = 350 := by
  simp [computeRepaymentScore, List.filter, List.foldl]
  norm_num [min_def]

/-- C4. The score computation is not wall-clock independent: the activity
score reads the current time, so one transaction event with timestamp
1000000 scores 10 frequency points when evaluated at that instant but 0 when
evaluated 90 days and one second later, and the aggregated totals differ. -/
theorem activityScore_wall_clock_dependent :
    computeActivityScore
      [ { type := EventType.transaction, timestamp := 1000000, value := 0,
          metadata := {}, weight := 1 } ] 1000000 = 10 ∧
    computeActivityScore
      [ { type := EventType.transaction, timestamp := 1000000, value := 0,
          metadata := {}, weight := 1 } ] 8776001 = 0 ∧
    calculateTotalScore (computeComponents
      [ { type := EventType.transaction, timestamp := 1000000, value := 0,
          metadata := {}, weight := 1 } ] 1000000) ≠
    calculateTotalScore (computeComponents
      [ { type := EventType.transaction, timestamp := 1000000, value := 0,
          metadata := {}, weight := 1 } ] 8776001) := by
  refine ⟨?_, ?_, ?_⟩ <;>
    · simp [computeActivityScore, computeComponents, calculateTotalScore,
        computeRepaymentScore, computeStakingScore, computeAttestationScore,
        computeRiskScore, getRepaymentReason, getStakingReason, getActivityReason,
        getAttestationReason, getRiskReason, List.filter, List.foldl]
      norm_num [min_def, max_def]

/-- C10. The staking duration term divides the accumulated stake durations by
the count of all staking-category events: a single one-year stake of value 0
scores 100 duration points, and appending one staking event whose action is
not stake halves the average, dropping the sub-score to 50; in general such
an event can strictly decrease the staking sub-score. -/
theorem stakingScore_average_over_all_staking_events :
    computeStakingScore
      [ { type := EventType.staking, timestamp := 0, value := 0,
          metadata := { action := some "stake", duration := some 31536000 },
          weight := 1 } ] = 100 ∧
    computeStakingScore
      [ { type := EventType.staking, timestamp := 0, value := 0,
          metadata := { action := some "stake", duration := some 31536000 },
          weight := 1 },
        { type := EventType.staking, timestamp := 0, value := 0,
          metadata := { action := some "unstake" }, weight := 1 } ] = 50 ∧
    ∃ (events : List CreditEvent) (e : CreditEvent),
      e.type = EventType.staking ∧ e.metadata.action ≠ some "stake" ∧
      computeStakingScore (events ++ [e]) < computeStakingScore events := by
  have h1 : computeStakingScore
      [ { type := EventType.staking, timestamp := 0, value := 0,
          metadata := { action := some "stake", duration := some 31536000 },
          weight := 1 } ] = 100 := by
    simp [computeStakingScore, List.filter, List.foldl]
    norm_num [min_def]
  have h2 : computeStakingScore
      [ { type := EventType.staking, timestamp := 0, value := 0,
          metadata := { action := some "stake", duration := some 31536000 },
          weight := 1 },
        { type := EventType.staking, timestamp := 0, value := 0,
          metadata := { action := some "unstake" }, weight := 1 } ] = 50 := by
    simp [computeStakingScore, List.filter, List.foldl]
    norm_num [min_def]
  refine ⟨h1, h2, ?_⟩
  refine ⟨[ { type := EventType.staking, timestamp := 0, value := 0,
              metadata := { action := some "stake", duration := some 31536000 },
              weight := 1 } ],
          { type := EventType.staking, timestamp := 0, value := 0,
            metadata := { action := some "unstake" }, weight := 1 },
          rfl, by simp, ?_⟩
  simp only [List.cons_append, List.nil_append]
  rw [h1, h2]
  norm_num

theorem riskDelta_nonneg (e : CreditEvent) : 0 ≤ riskDelta e := by
  simp only [riskDelta]
  split
  · norm_num
  · split
    · norm_num
    · split
      · norm_num
      · norm_num

theorem le_foldl_riskDelta (l : List CreditEvent) (init : ℚ) :
    init ≤ l.foldl (fun acc e => acc + riskDelta e) init := by
  induction l generalizing init with
  | nil => exact le_refl _
  | cons e rest ih =>
    exact le_trans (le_add_of_nonneg_right (riskDelta_nonneg e)) (ih (init + riskDelta e))

theorem filter_type_eq_nil_of_risk (extras : List CreditEvent) (t : EventType)
    (hall : ∀ e ∈ extras, e.type = EventType.risk) (ht : t ≠ EventType.risk) :
    extras.filter (fun e => decide (e.type = t)) = [] := by
  refine List.filter_eq_nil_iff.mpr fun e he => ?_
  simp [hall e he, Ne.symm ht]

theorem computeRepaymentScore_append_risk (events extras : List CreditEvent)
    (hall : ∀ e ∈ extras, e.type = EventType.risk) :
    computeRepaymentScore (events ++ extras) = computeRepaymentScore events := by
  have hfil : (events ++ extras).filter (fun e => decide (e.type = EventType.lending))
      = events.filter (fun e => decide (e.type = EventType.lending)) := by
    rw [List.filter_append,
      filter_type_eq_nil_of_risk extras EventType.lending hall (by simp),
      List.append_nil]
  simp only [computeRepaymentScore, hfil]

theorem computeStakingScore_append_risk (events extras : List CreditEvent)
    (hall : ∀ e ∈ extras, e.type = EventType.risk) :
    computeStakingScore (events ++ extras) = computeStakingScore events := by
  have hfil : (events ++ extras).filter (fun e => decide (e.type = EventType.staking))
      = events.filter (fun e => decide (e.type = EventType.staking)) := by
    rw [List.filter_append,
      filter_type_eq_nil_of_risk extras EventType.staking hall (by simp),
      List.append_nil]
  simp only [computeStakingScore, hfil]

theorem computeActivityScore_append_risk (events extras : List CreditEvent) (now : ℚ)
    (hall : ∀ e ∈ extras, e.type = EventType.risk) :
    computeActivityScore (events ++ extras) now = computeActivityScore events now := by
  have hfil : (events ++ extras).filter (fun e => decide (e.type = EventType.transaction))
      = events.filter (fun e => decide (e.type = EventType.transaction)) := by
    rw [List.filter_append,
      filter_type_eq_nil_of_risk extras EventType.transaction hall (by simp),
      List.append_nil]
  simp only [computeActivityScore, hfil]

theorem computeAttestationScore_append_risk (events extras : List CreditEvent)
    (hall : ∀ e ∈ extras, e.type = EventType.risk) :
    computeAttestationScore (events ++ extras) = computeAttestationScore events := by
  have hfil : (events ++ extras).filter (fun e => decide (e.type = EventType.attestation))
      = events.filter (fun e => decide (e.type = EventType.attestation)) := by
    rw [List.filter_append,
      filter_type_eq_nil_of_risk extras EventType.attestation hall (by simp),
      List.append_nil]
  simp only [computeAttestationScore, hfil]

theorem computeRiskScore_append_risk_ge (events extras : List CreditEvent)
    (hall : ∀ e ∈ extras, e.type = EventType.risk) :
    computeRiskScore events ≤ computeRiskScore (events ++ extras) := by
  have hfil : (events ++ extras).filter (fun e => decide (e.type = EventType.risk))
      = events.filter (fun e => decide (e.type = EventType.risk)) ++ extras := by
    rw [List.filter_append]
    congr 1
    exact List.filter_eq_self.mpr fun e he => by simp [hall e he]
  simp only [computeRiskScore, hfil, List.foldl_append]
  exact min_le_min (le_foldl_riskDelta _ _) (le_refl _)

theorem calculateTotalScore_computeComponents (events : List CreditEvent) (now : ℚ) :
    calculateTotalScore (computeComponents events now) =
      max 0 (min (0 + computeRepaymentScore events + computeStakingScore events
        + computeActivityScore events now + computeAttestationScore events
        - computeRiskScore events) 1000) := by
  simp [computeComponents, calculateTotalScore, List.foldl]

/-- C5. Risk is subtractive: appending any batch of risk-category events to
the input, holding all other events fixed, never increases the aggregated
total score, for every wall clock value. The four non-risk components ignore
risk events, and the risk component can only grow, which only lowers the
clamped total. -/
theorem totalScore_risk_monotone (events extras : List CreditEvent) (now : ℚ)
    (hall : ∀ e ∈ extras, e.type = EventType.risk) :
    calculateTotalScore (computeComponents (events ++ extras) now) ≤
      calculateTotalScore (computeComponents events now) := by
  rw [calculateTotalScore_computeComponents, calculateTotalScore_computeComponents,
    computeRepaymentScore_append_risk events extras hall,
    computeStakingScore_append_risk events extras hall,
    computeActivityScore_append_risk events extras now hall,
    computeAttestationScore_append_risk events extras hall]
  have hrisk := computeRiskScore_append_risk_ge events extras hall
  exact max_le_max (le_refl 0) (min_le_min (by linarith) (le_refl 1000))

/-- Witness for C5: appending one late-payment risk event to the empty event
list does not increase the total score. -/
theorem totalScore_risk_monotone_witness :
    (∀ e ∈ ([ { type := EventType.risk, timestamp := 0, value := 0,
                metadata := { riskType := some "late_payment" }, weight := 1 } ] :
              List CreditEvent), e.type = EventType.risk) ∧
    calculateTotalScore (computeComponents
      (([] : List CreditEvent) ++
        [ { type := EventType.risk, timestamp := 0, value := 0,
            metadata := { riskType := some "late_payment" }, weight := 1 } ]) 0) ≤
      calculateTotalScore (computeComponents ([] : List CreditEvent) 0) :=
  ⟨by simp,
   totalScore_risk_monotone []
     [ { type := EventType.risk, timestamp := 0, value := 0,
         metadata := { riskType := some "late_payment" }, weight := 1 } ] 0
     (by simp)⟩

end OnChainCred
